import Mathlib

/-!
Shallow embedding of `src/minishellai/minishellai.py` (command-line-assistant).

File systems are modelled as total maps from paths to optional contents:
`String → Option HistFile` for the JSON history file and
`String → Option String` for the plain-text captured-output file; `none`
means the path does not exist.  Python `None` appearing as a JSON value is
modelled by `Option String` in `Message.content`.  Exceptions that can
escape a modelled function are threaded explicitly.
-/

namespace Minishellai

/-- A role-tagged chat message, `{role, content}`.  `content` is
`Option String` because `handle_query` may pass Python `None`
(`completion.get("data", None)`) as the assistant content. -/
structure Message where
  role : String
  content : Option String
deriving Repr, DecidableEq

/-- Contents of the history file: either text that `json.load` parses to a
list of messages, or text on which `json.load` raises `JSONDecodeError`. -/
inductive HistFile where
  | parsed (history : List Message)
  | corrupt
deriving Repr, DecidableEq

/-- Exception kinds that the underlying `open`/`json.dump` calls inside
`write_history` can raise: `osError` models an `open(..., 'w')` failure
(not caught anywhere in the program); `jsonDecodeError` is the type named
by the `except` clause at line 72 of the source. -/
inductive WriteExc where
  | osError
  | jsonDecodeError
deriving Repr, DecidableEq

/-- Exception kinds that can escape a modelled function uncaught. -/
inductive PyExc where
  | osError
  | attributeError
deriving Repr, DecidableEq

/-- The `history` sub-mapping of the config: `config.get(key, default)`
is `field.getD default`; an absent key is `none`. -/
structure HistoryConfig where
  enabled : Option Bool
  filepath : Option String
  max_size : Option Nat
deriving Repr, DecidableEq

/-- The `output_capture_settings` sub-mapping of the config. -/
structure OutputCaptureSettings where
  captured_output_file : Option String
  prompt_separator : Option String
  enforce_script_session : Option Bool
deriving Repr, DecidableEq

/-- The `backend_service` sub-mapping of the config. -/
structure BackendService where
  query_endpoint : Option String
deriving Repr, DecidableEq

/-- The top-level parsed YAML config mapping. -/
structure Config where
  history : Option HistoryConfig
  output_capture_settings : Option OutputCaptureSettings
  backend_service : Option BackendService
deriving Repr, DecidableEq

/-- The empty mapping `{}`. -/
def emptyConfig : Config := ⟨none, none, none⟩

/-- The empty `output_capture_settings` mapping `{}`. -/
def emptyOCS : OutputCaptureSettings := ⟨none, none, none⟩

/-- The empty `history` mapping `{}`. -/
def emptyHistoryConfig : HistoryConfig := ⟨none, none, none⟩

/-- Decidable equality for `Except`, needed to evaluate concrete
`handle_caret` results. -/
instance {ε α : Type} [DecidableEq ε] [DecidableEq α] :
    DecidableEq (Except ε α) := fun x y =>
  match x, y with
  | .ok a, .ok b =>
    if h : a = b then .isTrue (by rw [h])
    else .isFalse (fun hc => by cases hc; exact h rfl)
  | .error a, .error b =>
    if h : a = b then .isTrue (by rw [h])
    else .isFalse (fun hc => by cases hc; exact h rfl)
  | .ok _, .error _ => .isFalse (fun hc => by cases hc)
  | .error _, .ok _ => .isFalse (fun hc => by cases hc)

/-- ASCII whitespace as recognised by Python `str.strip()`. -/
def isPyWhitespace (c : Char) : Bool :=
  c = ' ' || c = '\t' || c = '\n' || c = '\r' || c = '\x0b' || c = '\x0c'

/-- Python `str.strip()`: drop leading and trailing whitespace. -/
def pyStrip (s : String) : String :=
  ⟨((s.data.dropWhile isPyWhitespace).reverse.dropWhile isPyWhitespace).reverse⟩

/-- Worker for `pySplit`, structurally recursive on a fuel argument so the
kernel can evaluate it (`fuel` starts at the string length; each step
consumes at least one character when `sep` is non-empty). -/
def pySplitGo (sep : List Char) : Nat → List Char → List (List Char)
  | _, [] => [[]]
  | 0, s => [s]
  | Nat.succ fuel, c :: cs =>
    if sep.isPrefixOf (c :: cs) then
      [] :: pySplitGo sep fuel (List.drop sep.length (c :: cs))
    else
      match pySplitGo sep fuel cs with
      | [] => [[c]]
      | seg :: segs => (c :: seg) :: segs

/-- Python `s.split(sep)` for a non-empty separator `sep` (Python raises
`ValueError` on an empty separator, which the program never uses). -/
def pySplit (s sep : String) : List String :=
  (pySplitGo sep.data s.data.length s.data).map (fun l => ⟨l⟩)

/-- Python `'^' in query`: the query contains the marker character. -/
def hasCaret (query : String) : Bool :=
  query.data.contains '^'

/-- Python `query.replace('^', "")` at line 124: with a single-character
pattern and empty replacement this removes every `'^'`. -/
def removeCarets (query : String) : String :=
  ⟨query.data.filter (fun c => c ≠ '^')⟩

/-- `os.path.exists`: a path exists when the file system maps it to some
contents; the empty path never exists (`os.path.exists('')` is `False`). -/
def path_exists {α : Type} (fs : String → Option α) (p : String) : Bool :=
  p ≠ "" && (fs p).isSome

/-- `read_yaml_config(config_file)` (lines 28-34): if the file does not
exist, returns the empty dict `{}`; otherwise returns whatever
`yaml.safe_load` produced — `none` models Python `None`, the result of
parsing an empty YAML document; `some c` models a mapping. -/
def read_yaml_config (config_file_exists : Bool) (parsed : Option Config) :
    Option Config :=
  if ¬ config_file_exists then some emptyConfig
  else parsed

/-- `read_history(config)` (lines 36-59).  Returns `[]` when history is
disabled, when the configured filepath is falsy or does not exist, or when
`json.load` fails; otherwise `history[:max_size]`. -/
def read_history (config : HistoryConfig) (hfs : String → Option HistFile) :
    List Message :=
  if ¬ config.enabled.getD false then []
  else
    let filepath := config.filepath.getD "/tmp/minishellai_history.json"
    if filepath = "" || ¬ path_exists hfs filepath then []
    else
      let max_size := config.max_size.getD 100
      match hfs filepath with
      | none => []
      | some .corrupt => []
      | some (.parsed history) => history.take max_size

/-- Result of `write_history`: the file system after the call, the history
list after the call (the source appends to the caller's list in place at
line 68, before the `try`), and the exception escaping the call, if any. -/
structure WriteOutcome where
  hfs : String → Option HistFile
  history : List Message
  raised : Option PyExc

/-- `write_history(config, history, response)` (lines 61-73).  No-op when
disabled.  Otherwise appends `{"role": "assistant", "content": response}`
to `history` and dumps the list to the file.  The `wf` oracle says what
the `open`/`json.dump` pair does: `none` = success; `jsonDecodeError` is
caught by the `except` clause (logged, file untouched); `osError` (e.g.
`open` failing) is not caught and escapes. -/
def write_history (config : HistoryConfig) (history : List Message)
    (response : Option String) (hfs : String → Option HistFile)
    (wf : Option WriteExc) : WriteOutcome :=
  if ¬ config.enabled.getD false then ⟨hfs, history, none⟩
  else
    let filepath := config.filepath.getD "/tmp/minishellai_history.json"
    let history2 := history ++ [⟨"assistant", response⟩]
    match wf with
    | none =>
        ⟨fun p => if p = filepath then some (.parsed history2) else hfs p,
         history2, none⟩
    | some .jsonDecodeError => ⟨hfs, history2, none⟩
    | some .osError => ⟨hfs, history2, some .osError⟩

/-- The payload built by `get_payload` (lines 75-89): `{"msg": ...,
"metadata": {}}`. -/
structure Payload where
  msg : List Message
  metadata : List (String × String)
deriving Repr, DecidableEq

/-- `get_payload(query, history)` (lines 75-89): the history entries
followed by one new user message. -/
def get_payload (query : String) (history : List Message) : Payload :=
  ⟨history ++ [⟨"user", some query⟩], []⟩

/-- `handle_caret(query, config)` (lines 106-126).  `.error 1` models
`exit(1)`.  If the query has no `^`, it is returned unchanged; if the
captured-output file does not exist the process exits with status 1;
otherwise the file is split on the prompt separator, the last segment is
trimmed and prefixed as context to the query with all `^` removed. -/
def handle_caret (query : String) (config : Config)
    (tfs : String → Option String) : Except Nat String :=
  if ¬ hasCaret query then .ok query
  else
    let ocs := config.output_capture_settings.getD emptyOCS
    let cof := ocs.captured_output_file.getD "/tmp/minishellai_output.txt"
    if ¬ path_exists tfs cof then .error 1
    else
      match tfs cof with
      | none => .error 1
      | some content =>
        let prompt_separator := ocs.prompt_separator.getD "$"
        let output := pyStrip ((pySplit content prompt_separator).getLastD "")
        let query2 := removeCarets query
        .ok ("Context data: " ++ output ++ "\nQuestion: " ++ query2)

/-- What the backend POST at lines 142-150 produced: `.ok data` is a 2xx
response whose JSON body has `data = completion.get("data", None)`;
`.reqError` is any `requests.exceptions.RequestException` (transport
failure, timeout, or `raise_for_status` on a non-2xx status). -/
inductive BackendResult where
  | ok (data : Option String)
  | reqError
deriving Repr, DecidableEq

/-- Observable outcome of `handle_query`. `printed = some d` means
`print(response_data)` ran with `response_data = d`; `exited = some n`
models a call to `exit(n)`; `raised` is an uncaught exception. -/
structure HQOutcome where
  backendCalled : Bool
  printed : Option (Option String)
  exited : Option Nat
  raised : Option PyExc
  hfs : String → Option HistFile

/-- `handle_query(query, config)` (lines 128-155).  Applies
`handle_caret`, loads the history, builds the payload, posts it, and on
success writes the history (`payload['msg']` plus the response) and prints
the response data.  Only `RequestException` is caught (→ `exit(1)`); an
exception escaping `write_history` propagates and the print never runs. -/
def handle_query (query : String) (config : Config)
    (hfs : String → Option HistFile) (tfs : String → Option String)
    (backend : BackendResult) (wf : Option WriteExc) : HQOutcome :=
  match handle_caret query config tfs with
  | .error n => ⟨false, none, some n, none, hfs⟩
  | .ok q =>
    let history_conf := config.history.getD emptyHistoryConfig
    let history := read_history history_conf hfs
    let payload := get_payload q history
    match backend with
    | .reqError => ⟨true, none, some 1, none, hfs⟩
    | .ok data =>
      let w := write_history history_conf payload.msg data hfs wf
      match w.raised with
      | some e => ⟨true, none, none, some e, w.hfs⟩
      | none => ⟨true, some data, none, none, w.hfs⟩

/-- `start_script_session(shellai_tmp_file)` (lines 91-104): runs the
external `script` command — its effect on the text file system is the
oracle `session` — then removes the captured file if it exists. -/
def start_script_session (shellai_tmp_file : String)
    (session : (String → Option String) → (String → Option String))
    (tfs : String → Option String) : String → Option String :=
  let tfs2 := session tfs
  fun p => if p = shellai_tmp_file then none else tfs2 p

/-- Observable outcome of the `__main__` dispatch (lines 157-195). -/
structure MainOutcome where
  exitCode : Nat
  raised : Option PyExc
  backendCalled : Bool
  printed : Option (Option String)
  hintPrinted : Bool
  usagePrinted : Bool
  recordRan : Bool
  hfs : String → Option HistFile
  tfs : String → Option String

/-- `read_stdin` (lines 19-26) combined with the walrus test at line 161:
the stripped stdin text when stdin is available and non-blank, else
`None`.  (A blank stdin strips to `""`, which is falsy, so `query` stays
`None`.) -/
def stdin_query (stdin_data : Option String) : Option String :=
  match stdin_data with
  | none => none
  | some s => let t := pyStrip s; if t = "" then none else some t

/-- The `__main__` block (lines 157-195).  `config_file_exists`/`parsed`
feed `read_yaml_config`; `backend`, `wf` and `session` are the oracles of
the external world.  `config.get('output_capture_settings', {})` on the
`None` produced by an empty YAML document raises an uncaught
`AttributeError` (modelled as `raised = some .attributeError`, process
exit status 1). -/
def mainRun (args : List String) (stdin_data : Option String)
    (config_file_exists : Bool) (parsed : Option Config)
    (hfs : String → Option HistFile) (tfs : String → Option String)
    (backend : BackendResult) (wf : Option WriteExc)
    (session : (String → Option String) → (String → Option String)) :
    MainOutcome :=
  let query0 := stdin_query stdin_data
  if args = [] ∧ query0 = none then
    ⟨1, none, false, none, false, true, false, hfs, tfs⟩
  else
    match read_yaml_config config_file_exists parsed with
    | none => ⟨1, some .attributeError, false, none, false, false, false, hfs, tfs⟩
    | some config =>
      let ocs := config.output_capture_settings.getD emptyOCS
      let enforce_script_session := ocs.enforce_script_session.getD false
      let captured_output_file :=
        ocs.captured_output_file.getD "/tmp/minishellai_output.txt"
      if enforce_script_session ∧ args ≠ [] ∧ args.head? ≠ some "record"
          ∧ ¬ path_exists tfs captured_output_file then
        ⟨1, none, false, none, true, false, false, hfs, tfs⟩
      else if args.head? = some "record" then
        ⟨0, none, false, none, false, false, true, hfs,
         start_script_session captured_output_file session tfs⟩
      else
        let arg_query := String.join args
        let query1 :=
          if arg_query ≠ "" then
            match query0 with
            | some q => some (q ++ "\n" ++ arg_query)
            | none => some arg_query
          else query0
        match query1 with
        | none => ⟨1, none, false, none, false, true, false, hfs, tfs⟩
        | some query =>
          let hq := handle_query query config hfs tfs backend wf
          ⟨match hq.raised with | some _ => 1 | none => hq.exited.getD 0,
           hq.raised, hq.backendCalled, hq.printed, false, false, false,
           hq.hfs, tfs⟩

/-- The other chat role: `"user" ↦ "assistant"`, anything else ↦
`"user"`. -/
def flipRole (r : String) : String :=
  if r = "user" then "assistant" else "user"

/-- The spec's payload invariant (§3): the roles of the messages
alternate, the first being `r`. -/
def rolesAlternateFrom : String → List Message → Bool
  | _, [] => true
  | r, m :: ms => (m.role == r) && rolesAlternateFrom (flipRole r) ms

/-- The role expected after consuming `l`, starting from `r`. -/
def nextRole : String → List Message → String
  | r, [] => r
  | r, _ :: ms => nextRole (flipRole r) ms

theorem rolesAlternateFrom_append (l₁ l₂ : List Message) : ∀ r,
    rolesAlternateFrom r (l₁ ++ l₂)
      = (rolesAlternateFrom r l₁ && rolesAlternateFrom (nextRole r l₁) l₂) := by
  induction l₁ with
  | nil => intro r; simp [rolesAlternateFrom, nextRole]
  | cons m ms ih =>
      intro r
      simp [rolesAlternateFrom, nextRole, ih, Bool.and_assoc]

theorem nextRole_parity (l : List Message) : ∀ r, (r = "user" ∨ r = "assistant") →
    nextRole r l = if l.length % 2 = 0 then r else flipRole r := by
  induction l with
  | nil => intro r _; simp [nextRole]
  | cons m ms ih =>
      intro r hr
      have hflip : flipRole r = "user" ∨ flipRole r = "assistant" := by
        rcases hr with h | h <;> simp [flipRole, h]
      have hff : flipRole (flipRole r) = r := by
        rcases hr with h | h <;> subst h <;> rfl
      show nextRole (flipRole r) ms = _
      rw [ih (flipRole r) hflip]
      rcases Nat.mod_two_eq_zero_or_one ms.length with h | h
      · have h1 : (ms.length + 1) % 2 = 1 := by omega
        simp [h, h1, hff]
      · have h1 : (ms.length + 1) % 2 = 0 := by omega
        simp [h, h1, hff]

/-- C1: for every config with history enabled and every existing history
file whose stored JSON list has more than `max_size` entries,
`read_history` returns exactly the first `max_size` entries of the stored
list (a left-truncation), not the most recent ones. -/
theorem read_history_left_truncation (cfg : HistoryConfig)
    (hfs : String → Option HistFile) (l : List Message)
    (hen : cfg.enabled.getD false = true)
    (hex : path_exists hfs (cfg.filepath.getD "/tmp/minishellai_history.json") = true)
    (hstore : hfs (cfg.filepath.getD "/tmp/minishellai_history.json")
        = some (.parsed l))
    (hsize : cfg.max_size.getD 100 < l.length) :
    read_history cfg hfs = l.take (cfg.max_size.getD 100)
      ∧ (read_history cfg hfs).length = cfg.max_size.getD 100 := by
  have hfp : cfg.filepath.getD "/tmp/minishellai_history.json" ≠ "" := by
    intro h; rw [h] at hex; simp [path_exists] at hex
  refine ⟨?_, ?_⟩
  · simp [read_history, hen, hex, hfp, hstore]
  · simp [read_history, hen, hex, hfp, hstore]
    omega

theorem read_history_left_truncation_witness :
    read_history ⟨some true, none, some 2⟩
      (fun p => if p = "/tmp/minishellai_history.json"
        then some (.parsed [⟨"user", some "q1"⟩, ⟨"assistant", some "a1"⟩,
          ⟨"user", some "q2"⟩]) else none)
      = [⟨"user", some "q1"⟩, ⟨"assistant", some "a1"⟩]
      ∧ (read_history ⟨some true, none, some 2⟩
      (fun p => if p = "/tmp/minishellai_history.json"
        then some (.parsed [⟨"user", some "q1"⟩, ⟨"assistant", some "a1"⟩,
          ⟨"user", some "q2"⟩]) else none)).length = 2 :=
  read_history_left_truncation ⟨some true, none, some 2⟩ _
    [⟨"user", some "q1"⟩, ⟨"assistant", some "a1"⟩, ⟨"user", some "q2"⟩]
    (by decide) (by decide) (by decide) (by decide)

/-- C2 (counterexample): with history enabled and the configured filepath
the empty string, writing and then reading does not yield the appended
history: `os.path.exists('')` is false (and the line-44 truthiness check
returns `[]` for a falsy filepath), so `read_history` returns `[]`
instead of the appended singleton. -/
theorem write_read_roundtrip_empty_filepath :
    read_history ⟨some true, some "", none⟩
        (write_history ⟨some true, some "", none⟩ [] (some "ok")
          (fun _ => none) none).hfs
      ≠ (([] : List Message) ++ [Message.mk "assistant" (some "ok")]).take 100 := by
  decide

/-- C2 (amended): for every history-enabled config whose effective
filepath is non-empty, if the file write succeeds, `write_history`
followed by `read_history` yields the original history with
`{role: assistant, content: response}` appended, truncated to the first
`max_size` entries. -/
theorem write_read_roundtrip (cfg : HistoryConfig)
    (hfs : String → Option HistFile) (history : List Message)
    (response : String)
    (hen : cfg.enabled.getD false = true)
    (hfp : cfg.filepath.getD "/tmp/minishellai_history.json" ≠ "") :
    read_history cfg (write_history cfg history (some response) hfs none).hfs
      = (history ++ [Message.mk "assistant" (some response)]).take (cfg.max_size.getD 100) := by
  simp [read_history, write_history, path_exists, hen, hfp]

theorem write_read_roundtrip_witness :
    read_history ⟨some true, none, none⟩
        (write_history ⟨some true, none, none⟩ [⟨"user", some "hi"⟩] (some "ok")
          (fun _ => none) none).hfs
      = ([Message.mk "user" (some "hi")] ++ [Message.mk "assistant" (some "ok")]).take 100 :=
  write_read_roundtrip ⟨some true, none, none⟩ (fun _ => none)
    [⟨"user", some "hi"⟩] "ok" (by decide) (by decide)

/-- C8: with history disabled (`enabled` false or absent), `read_history`
returns `[]` and `write_history` touches no file and raises nothing,
whatever the file contents and the other arguments. -/
theorem disabled_history_noop (cfg : HistoryConfig)
    (hfs : String → Option HistFile) (history : List Message)
    (response : Option String) (wf : Option WriteExc)
    (hdis : cfg.enabled.getD false = false) :
    read_history cfg hfs = []
      ∧ (write_history cfg history response hfs wf).hfs = hfs
      ∧ (write_history cfg history response hfs wf).raised = none := by
  refine ⟨?_, ?_, ?_⟩ <;> simp [read_history, write_history, hdis]

theorem disabled_history_noop_witness :
    read_history ⟨none, none, none⟩
        (fun _ => some (.parsed [⟨"user", some "q"⟩])) = []
      ∧ (write_history ⟨none, none, none⟩ [⟨"user", some "q"⟩] (some "ok")
          (fun _ => some (.parsed [⟨"user", some "q"⟩])) none).hfs
        = (fun _ => some (.parsed [⟨"user", some "q"⟩]))
      ∧ (write_history ⟨none, none, none⟩ [⟨"user", some "q"⟩] (some "ok")
          (fun _ => some (.parsed [⟨"user", some "q"⟩])) none).raised = none :=
  disabled_history_noop ⟨none, none, none⟩ _ [⟨"user", some "q"⟩]
    (some "ok") none (by decide)

/-- C9 (counterexample): with history disabled, `write_history` returns
early and does not append to the caller's list, so the claim's
unconditional "the caller's list has the assistant entry appended" fails
at this input. -/
theorem write_history_inplace_counterexample :
    (write_history ⟨some false, none, none⟩ [] (some "ok")
        (fun _ => none) none).history
      ≠ [(⟨"assistant", some "ok"⟩ : Message)] := by
  decide

/-- C9 (amended): when history is enabled, `write_history` appends
`{role: assistant, content: response}` to the caller's history list in
place (the source mutates the argument at line 68, before the `try`),
even when the file write fails — although its documented effect is only
to write the file. -/
theorem write_history_inplace (cfg : HistoryConfig)
    (hfs : String → Option HistFile) (history : List Message)
    (response : Option String) (wf : Option WriteExc)
    (hen : cfg.enabled.getD false = true) :
    (write_history cfg history response hfs wf).history
      = history ++ [Message.mk "assistant" response] := by
  match wf with
  | none => simp [write_history, hen]
  | some .osError => simp [write_history, hen]
  | some .jsonDecodeError => simp [write_history, hen]

theorem write_history_inplace_witness :
    (write_history ⟨some true, none, none⟩ [⟨"user", some "q"⟩] (some "ok")
        (fun _ => none) (some .osError)).history
      = [Message.mk "user" (some "q")] ++ [Message.mk "assistant" (some "ok")] :=
  write_history_inplace ⟨some true, none, none⟩ _ [⟨"user", some "q"⟩]
    (some "ok") (some .osError) (by decide)

/-- C3 (counterexample): nothing validates the stored history, so a
history file whose first entry has role `"assistant"` yields a payload
whose roles do not alternate starting with `"user"`. -/
theorem payload_alternation_counterexample :
    rolesAlternateFrom "user"
      (get_payload "q"
        (read_history ⟨some true, none, none⟩
          (fun p => if p = "/tmp/minishellai_history.json"
            then some (.parsed [Message.mk "assistant" (some "a")])
            else none))).msg = false := by
  decide

/-- C3 (amended): in every payload built from a loaded history that
itself alternates starting with `"user"` and has even length (i.e. ends
with an assistant reply or is empty), the roles alternate between
`"user"` and `"assistant"` and the first role is `"user"`. -/
theorem payload_alternation (history : List Message) (query : String)
    (h1 : rolesAlternateFrom "user" history = true)
    (h2 : history.length % 2 = 0) :
    rolesAlternateFrom "user" (get_payload query history).msg = true := by
  show rolesAlternateFrom "user" (history ++ [⟨"user", some query⟩]) = true
  rw [rolesAlternateFrom_append, h1,
    nextRole_parity history "user" (Or.inl rfl), if_pos h2]
  simp [rolesAlternateFrom]

theorem payload_alternation_witness :
    rolesAlternateFrom "user"
      (get_payload "next"
        [Message.mk "user" (some "q"), Message.mk "assistant" (some "a")]).msg
      = true :=
  payload_alternation [Message.mk "user" (some "q"),
    Message.mk "assistant" (some "a")] "next" (by decide) (by decide)

/-- C4 (code bug): after a successful backend response, a failing history
write is *not* swallowed — the `except` clause at line 72 catches only
`json.JSONDecodeError`, which `open`/`json.dump` never raise — so an
`OSError` from `open(filepath, 'w')` escapes `write_history`, is not a
`RequestException`, propagates out of `handle_query`, and the response is
never printed. -/
theorem write_failure_loses_response :
    (handle_query "hi" ⟨some ⟨some true, none, none⟩, none, none⟩
        (fun _ => none) (fun _ => none) (.ok (some "the answer"))
        (some .osError)).printed = none
      ∧ (handle_query "hi" ⟨some ⟨some true, none, none⟩, none, none⟩
        (fun _ => none) (fun _ => none) (.ok (some "the answer"))
        (some .osError)).raised = some .osError
      ∧ (handle_query "hi" ⟨some ⟨some true, none, none⟩, none, none⟩
        (fun _ => none) (fun _ => none) (.ok (some "the answer"))
        (some .osError)).backendCalled = true := by
  decide

/-- C6: with the captured file containing `"$ ls\nfile1\nfile2\n$ pwd\n/home\n"`
and separator `"$"`, `handle_caret "tell me about ^"` returns exactly
`"Context data: pwd\n/home\nQuestion: tell me about "` — all `^` removed,
the last separator-delimited segment trimmed and used as context. -/
theorem handle_caret_context_injection :
    handle_caret "tell me about ^"
      ⟨none, some ⟨some "/tmp/minishellai_output.txt", some "$", none⟩, none⟩
      (fun p => if p = "/tmp/minishellai_output.txt"
        then some "$ ls\nfile1\nfile2\n$ pwd\n/home\n" else none)
      = .ok "Context data: pwd\n/home\nQuestion: tell me about " := by
  decide

/-- C7: for every query containing `^`, if the configured captured-output
file does not exist, `handle_caret` exits the process with status 1 and
never returns a rewritten query. -/
theorem handle_caret_missing_file_exits (query : String) (config : Config)
    (tfs : String → Option String)
    (hq : hasCaret query = true)
    (hmiss : path_exists tfs
        ((config.output_capture_settings.getD emptyOCS).captured_output_file.getD
          "/tmp/minishellai_output.txt") = false) :
    handle_caret query config tfs = .error 1 := by
  simp [handle_caret, hq, hmiss]

theorem handle_caret_missing_file_exits_witness :
    handle_caret "tell me about ^" ⟨none, none, none⟩ (fun _ => none)
      = .error 1 :=
  handle_caret_missing_file_exits "tell me about ^" ⟨none, none, none⟩
    (fun _ => none) (by decide) (by decide)

/-- C5 (counterexample): the guard at line 178 requires `args` to be
non-empty, so a QueryMode invocation whose query arrives only on stdin
(args `[]`, stdin `"hello"`) bypasses it even with
`enforce_script_session` true and the captured-output file absent: the
backend is called, no hint is printed, and the exit status is 0. -/
theorem enforce_guard_counterexample :
    (mainRun [] (some "hello") true
        (some ⟨none, some ⟨none, none, some true⟩, none⟩)
        (fun _ => none) (fun _ => none) (.ok (some "x")) none id).backendCalled
        = true
      ∧ (mainRun [] (some "hello") true
        (some ⟨none, some ⟨none, none, some true⟩, none⟩)
        (fun _ => none) (fun _ => none) (.ok (some "x")) none id).exitCode = 0
      ∧ (mainRun [] (some "hello") true
        (some ⟨none, some ⟨none, none, some true⟩, none⟩)
        (fun _ => none) (fun _ => none) (.ok (some "x")) none id).hintPrinted
        = false := by
  decide

/-- C5 (amended): for every invocation with at least one CLI argument
whose first argument is not `"record"`, with `enforce_script_session`
true and the captured-output file absent, the program prints the
run-`record`-first hint, exits with status 1, and makes no backend
call. -/
theorem enforce_guard_refuses (a : String) (rest : List String)
    (stdin : Option String) (cfg : Config) (hfs : String → Option HistFile)
    (tfs : String → Option String) (backend : BackendResult)
    (wf : Option WriteExc)
    (session : (String → Option String) → (String → Option String))
    (ha : a ≠ "record")
    (henf : (cfg.output_capture_settings.getD
        emptyOCS).enforce_script_session.getD false = true)
    (hmiss : path_exists tfs
        ((cfg.output_capture_settings.getD emptyOCS).captured_output_file.getD
          "/tmp/minishellai_output.txt") = false) :
    (mainRun (a :: rest) stdin true (some cfg) hfs tfs backend wf
        session).exitCode = 1
      ∧ (mainRun (a :: rest) stdin true (some cfg) hfs tfs backend wf
        session).backendCalled = false
      ∧ (mainRun (a :: rest) stdin true (some cfg) hfs tfs backend wf
        session).hintPrinted = true := by
  refine ⟨?_, ?_, ?_⟩ <;> simp [mainRun, read_yaml_config, ha, henf, hmiss]

theorem enforce_guard_refuses_witness :
    (mainRun ["hello"] none true
        (some ⟨none, some ⟨none, none, some true⟩, none⟩)
        (fun _ => none) (fun _ => none) (.ok (some "x")) none id).exitCode = 1
      ∧ (mainRun ["hello"] none true
        (some ⟨none, some ⟨none, none, some true⟩, none⟩)
        (fun _ => none) (fun _ => none) (.ok (some "x")) none id).backendCalled
        = false
      ∧ (mainRun ["hello"] none true
        (some ⟨none, some ⟨none, none, some true⟩, none⟩)
        (fun _ => none) (fun _ => none) (.ok (some "x")) none id).hintPrinted
        = true :=
  enforce_guard_refuses "hello" [] none
    ⟨none, some ⟨none, none, some true⟩, none⟩
    (fun _ => none) (fun _ => none) (.ok (some "x")) none id
    (by decide) (by decide) (by decide)

/-- C10: when the config file exists but parses to an empty document,
`read_yaml_config` returns the non-mapping `None` and the
`config.get('output_capture_settings', {})` access at line 174 raises an
uncaught `AttributeError` before any dispatch; when the config file is
absent, the same invocation instead proceeds with defaults (here all the
way to the backend call). -/
theorem empty_config_unhandled_error (a : String) (rest : List String)
    (stdin : Option String) (hfs : String → Option HistFile)
    (tfs : String → Option String) (backend : BackendResult)
    (wf : Option WriteExc)
    (session : (String → Option String) → (String → Option String)) :
    read_yaml_config true none = none
      ∧ (mainRun (a :: rest) stdin true none hfs tfs backend wf
        session).raised = some .attributeError
      ∧ (mainRun (a :: rest) stdin true none hfs tfs backend wf
        session).backendCalled = false
      ∧ (mainRun ["hi"] none false none (fun _ => none) (fun _ => none)
        (.ok (some "x")) none id).raised = none
      ∧ (mainRun ["hi"] none false none (fun _ => none) (fun _ => none)
        (.ok (some "x")) none id).backendCalled = true := by
  refine ⟨rfl, ?_, ?_, by decide, by decide⟩ <;>
    simp [mainRun, read_yaml_config]

end Minishellai
